import Mathlib

/-!
Verification development for the `rust/cli` crate of the hyperlane-monorepo
client: a construction layer that builds Solana instructions for the mailbox
protocol (initialize mailbox, outbox dispatch, inbox process) and abstracts
transaction submission and account reading over interchangeable backends.

Shallow embedding conventions:
  - `Pubkey`, `H256`, `Hash`, `Signature` are opaque identifiers modelled as `Nat`.
  - Byte strings are `List Nat`.
  - Rust code that can panic (an `unwrap` on a fallible operation) is modelled
    as returning `Option`, with `none` standing for the abort.
  - Backend calls are modelled as explicit function-valued inputs.
  - Definitions carrying a doc comment beginning `Modelled from the spec:` embed
    code that is part of this repository or its external collaborators but is
    not under the `cli` crate sources (the mailbox program crate, the core
    message types, the Solana SDK); they follow the specification text.
    Everything else is translated directly from the `cli` crate sources.
-/

namespace HyperlaneCli

/-- A Solana public key, modelled as an opaque natural-number identifier. -/
abbrev Pubkey : Type := Nat

/-- A 32-byte value (message identifiers, chain-agnostic recipient identities). -/
abbrev H256 : Type := Nat

/-- A byte string. -/
abbrev Bytes : Type := List Nat

/-- Modelled from the spec: the well-known system-account program identity
(the external constant from the Solana SDK). -/
def system_program_id : Pubkey := 0

/-- Modelled from the spec: the logging/no-op program identity (the external
constant from the mailbox program crate). -/
def spl_noop_id : Pubkey := 1

/-- An account reference inside an instruction, tagged with signer and
writability flags (the Solana SDK AccountMeta). -/
structure AccountMeta where
  pubkey : Pubkey
  is_signer : Bool
  is_writable : Bool
deriving DecidableEq

/-- AccountMeta::new — a writable account reference. -/
def AccountMeta.new (pubkey : Pubkey) (is_signer : Bool) : AccountMeta :=
  { pubkey := pubkey, is_signer := is_signer, is_writable := true }

/-- AccountMeta::new_readonly — a read-only account reference. -/
def AccountMeta.new_readonly (pubkey : Pubkey) (is_signer : Bool) : AccountMeta :=
  { pubkey := pubkey, is_signer := is_signer, is_writable := false }

/-- A protocol-neutral instruction: target program, ordered account references,
opaque payload (the Solana SDK Instruction). -/
structure Instruction where
  program_id : Pubkey
  accounts : List AccountMeta
  data : Bytes
deriving DecidableEq

/-- Modelled from the spec: the five fixed seed labels of the address deriver —
inbox, outbox, dispatched-message (extended by a per-dispatch unique key),
processed-message (extended by a message identifier), process-authority
(extended by a recipient program identity). -/
inductive PdaSeeds where
  | inbox : PdaSeeds
  | outbox : PdaSeeds
  | dispatched_message (unique_key : Pubkey) : PdaSeeds
  | processed_message (message_id : H256) : PdaSeeds
  | process_authority (recipient : Pubkey) : PdaSeeds
deriving DecidableEq

/-- The inbox seed set (the mailbox_inbox_pda_seeds macro). -/
def mailbox_inbox_pda_seeds : PdaSeeds := PdaSeeds.inbox

/-- The outbox seed set (the mailbox_outbox_pda_seeds macro). -/
def mailbox_outbox_pda_seeds : PdaSeeds := PdaSeeds.outbox

/-- The dispatched-message seed set, extended by the unique message key. -/
def mailbox_dispatched_message_pda_seeds (unique_key : Pubkey) : PdaSeeds :=
  PdaSeeds.dispatched_message unique_key

/-- The processed-message seed set, extended by the message identifier. -/
def mailbox_processed_message_pda_seeds (message_id : H256) : PdaSeeds :=
  PdaSeeds.processed_message message_id

/-- The process-authority seed set, extended by the recipient program identity. -/
def mailbox_process_authority_pda_seeds (recipient : Pubkey) : PdaSeeds :=
  PdaSeeds.process_authority recipient

/-- Injective numeric encoding of a seed set. -/
def PdaSeeds.encode : PdaSeeds → Nat
  | PdaSeeds.inbox => Nat.pair 0 0
  | PdaSeeds.outbox => Nat.pair 1 0
  | PdaSeeds.dispatched_message k => Nat.pair 2 k
  | PdaSeeds.processed_message m => Nat.pair 3 m
  | PdaSeeds.process_authority r => Nat.pair 4 r

/-- Modelled from the spec: the deterministic one-way program-derived address
computation of the execution backend (Pubkey::find_program_address): from a
program identity and a seed set, an (address, bump-proof) pair. -/
def find_program_address (seeds : PdaSeeds) (program_id : Pubkey) : Pubkey × Nat :=
  (Nat.pair program_id seeds.encode, 255)

/-- Modelled from the spec: a cross-chain message — origin domain, destination
domain, sender identity, recipient identity, opaque body (the core message type
of the repository, outside the cli crate sources). -/
structure HyperlaneMessage where
  origin : Nat
  destination : Nat
  sender : H256
  recipient : H256
  body : Bytes
deriving DecidableEq

/-- Little-endian 4-byte encoding of a 32-bit integer. -/
def u32_le (n : Nat) : Bytes :=
  [n % 256, n / 256 % 256, n / 65536 % 256, n / 16777216 % 256]

/-- 32-byte encoding of a 32-byte value. -/
def h256_bytes (n : H256) : Bytes :=
  (List.range 32).map (fun i => n / 256 ^ i % 256)

/-- A length-prefixed byte vector. -/
def vec_bytes (b : Bytes) : Bytes := u32_le b.length ++ b

/-- Modelled from the spec: the canonical, versioned binary message encoding
shared with the on-chain program (Encode::write_to on the core message type).
Writing into a growable buffer always succeeds. -/
def HyperlaneMessage.write_to (m : HyperlaneMessage) : Bytes :=
  3 :: (u32_le m.origin ++ h256_bytes m.sender ++ u32_le m.destination ++
    h256_bytes m.recipient ++ m.body)

/-- Modelled from the spec: the protocol-defined unique message identifier,
derived deterministically from the canonical encoding of the message content. -/
def HyperlaneMessage.id (m : HyperlaneMessage) : H256 :=
  m.write_to.foldl (fun acc b => acc * 256 + b) 1

/-- The Init operation payload: local domain and default ISM identity. -/
structure InitMailbox where
  local_domain : Nat
  default_ism : Pubkey
deriving DecidableEq

/-- The OutboxDispatch operation payload: the full outbound message. -/
structure OutboxDispatch where
  sender : Pubkey
  destination_domain : Nat
  recipient : H256
  message_body : Bytes
deriving DecidableEq

/-- The InboxProcess operation payload: metadata and canonical message bytes. -/
structure InboxProcess where
  metadata : Bytes
  message : Bytes
deriving DecidableEq

/-- Modelled from the spec: the tagged protocol operation record (the mailbox
program instruction enum, outside the cli crate sources). -/
inductive MailboxInstruction where
  | Init (ixn : InitMailbox)
  | OutboxDispatch (ixn : HyperlaneCli.OutboxDispatch)
  | InboxProcess (ixn : HyperlaneCli.InboxProcess)
deriving DecidableEq

/-- Modelled from the spec: the backend bound on instruction payload size;
payloads beyond it fail serialization as too large. -/
def MAX_INSTRUCTION_DATA_LEN : Nat := 1232

/-- Modelled from the spec: the tagged, versioned binary encoding of a protocol
operation — a fixed tag byte followed by the fixed field order. -/
def MailboxInstruction.encode : MailboxInstruction → Bytes
  | MailboxInstruction.Init i =>
      0 :: (u32_le i.local_domain ++ h256_bytes i.default_ism)
  | MailboxInstruction.OutboxDispatch d =>
      1 :: (h256_bytes d.sender ++ u32_le d.destination_domain ++
        h256_bytes d.recipient ++ vec_bytes d.message_body)
  | MailboxInstruction.InboxProcess p =>
      2 :: (vec_bytes p.metadata ++ vec_bytes p.message)

/-- Modelled from the spec: serialization of a protocol operation into
instruction payload bytes (into_instruction_data); a construction-time failure
when the encoded payload is too large for the backend. -/
def MailboxInstruction.into_instruction_data (i : MailboxInstruction) : Option Bytes :=
  if i.encode.length ≤ MAX_INSTRUCTION_DATA_LEN then some i.encode else none

/-- The bundle produced when initializing a mailbox (instruction.rs). -/
structure MailboxAccounts where
  program : Pubkey
  inbox : Pubkey
  inbox_bump_seed : Nat
  outbox : Pubkey
  outbox_bump_seed : Nat
  default_ism : Pubkey
deriving DecidableEq

/-- initialize_mailbox from instruction.rs: derive the inbox and outbox
accounts, build the Init instruction with the fixed account list, and return it
with the MailboxAccounts bundle. The unwrap on serialization is modelled as
Option, with none standing for the abort. -/
def initialize_mailbox (mailbox_program_id : Pubkey) (payer : Pubkey)
    (local_domain : Nat) (default_ism : Pubkey) :
    Option (Instruction × MailboxAccounts) :=
  let inboxPair := find_program_address mailbox_inbox_pda_seeds mailbox_program_id
  let outboxPair := find_program_address mailbox_outbox_pda_seeds mailbox_program_id
  let ixn := MailboxInstruction.Init
    { local_domain := local_domain, default_ism := default_ism }
  match ixn.into_instruction_data with
  | none => none
  | some data =>
    some ({ program_id := mailbox_program_id,
            data := data,
            accounts :=
              [AccountMeta.new system_program_id false,
               AccountMeta.new payer true,
               AccountMeta.new inboxPair.1 false,
               AccountMeta.new outboxPair.1 false] },
          { program := mailbox_program_id,
            inbox := inboxPair.1,
            inbox_bump_seed := inboxPair.2,
            outbox := outboxPair.1,
            outbox_bump_seed := outboxPair.2,
            default_ism := default_ism })

/-- A caller-held signing key; only its public key matters to instruction
construction, so the secret half is not modelled. -/
structure Keypair where
  pubkey_value : Pubkey
deriving DecidableEq

/-- The public key of a keypair. -/
def Keypair.pubkey (k : Keypair) : Pubkey := k.pubkey_value

/-- outbox_dispatch from instruction.rs: derive the dispatched-message address
from the ephemeral unique-message keypair, build the OutboxDispatch instruction,
and return it with the keypair and the derived address. The fresh ephemeral
keypair produced by Keypair::new, a source of randomness, is modelled as an
explicit input; the unwrap on serialization is modelled as Option. -/
def outbox_dispatch (mailbox_program_id : Pubkey) (outbox : Pubkey)
    (payer : Pubkey) (message : OutboxDispatch)
    (unique_message_account_keypair : Keypair) :
    Option (Instruction × Keypair × Pubkey) :=
  let dispatched := find_program_address
    (mailbox_dispatched_message_pda_seeds unique_message_account_keypair.pubkey)
    mailbox_program_id
  match (MailboxInstruction.OutboxDispatch message).into_instruction_data with
  | none => none
  | some data =>
    some ({ program_id := mailbox_program_id,
            accounts :=
              [AccountMeta.new outbox false,
               AccountMeta.new message.sender true,
               AccountMeta.new_readonly system_program_id false,
               AccountMeta.new_readonly spl_noop_id false,
               AccountMeta.new payer true,
               AccountMeta.new unique_message_account_keypair.pubkey true,
               AccountMeta.new dispatched.1 false],
            data := data },
          unique_message_account_keypair,
          dispatched.1)

/-- inbox_process from instruction.rs: derive the process-authority address
from the recipient program identity (taken from the recipient-handle stub) and
the processed-message address from the message identifier, then flatten the
fixed prefix, the three sub-instruction account lists and the fixed separators
into one account list. The unwrap on serialization is modelled as Option. -/
def inbox_process (mailbox_program_id : Pubkey) (inbox : Pubkey) (payer : Pubkey)
    (metadata : Bytes) (message : HyperlaneMessage)
    (get_ism : Instruction) (ism_verify : Instruction)
    (recipient_handle : Instruction) : Option Instruction :=
  let recipient := recipient_handle.program_id
  let process_authority_key := find_program_address
    (mailbox_process_authority_pda_seeds recipient) mailbox_program_id
  let processed_message_account_key := find_program_address
    (mailbox_processed_message_pda_seeds message.id) mailbox_program_id
  let accounts : List (List AccountMeta) :=
    [[AccountMeta.new_readonly payer true,
      AccountMeta.new_readonly system_program_id false,
      AccountMeta.new inbox false,
      AccountMeta.new_readonly process_authority_key.1 false,
      AccountMeta.new processed_message_account_key.1 false],
     get_ism.accounts,
     [AccountMeta.new_readonly spl_noop_id false,
      AccountMeta.new_readonly ism_verify.program_id false],
     ism_verify.accounts,
     [AccountMeta.new_readonly recipient false],
     recipient_handle.accounts]
  let encoded_message := message.write_to
  let ixn := MailboxInstruction.InboxProcess
    { metadata := metadata, message := encoded_message }
  match ixn.into_instruction_data with
  | none => none
  | some ixn_data =>
    some { program_id := mailbox_program_id,
           data := ixn_data,
           accounts := accounts.flatten }

/-- empty from instruction.rs: an instruction with no accounts or data. -/
def empty (program_id : Pubkey) : Instruction :=
  { program_id := program_id, accounts := [], data := [] }

/-- An account held by the backend (the Solana SDK Account). -/
structure Account where
  lamports : Nat
  data : Bytes
  owner : Pubkey
  executable : Bool
  rent_epoch : Nat
deriving DecidableEq

/-- get_account_deserialized, the provided method of the AccountReader trait in
lib.rs: read the account through the abstract get_account capability, propagate
a backend error, return none for an absent account, and otherwise decode the
account bytes after skipping the first byte. The generic backend read and the
generic Borsh decoder are explicit function inputs; the two panics of the
source — slicing the data when it has no first byte, and the unwrap on decode
failure — are modelled as the outer Option, with none standing for the abort. -/
def get_account_deserialized {E T : Type}
    (get_account : Pubkey → Except E (Option Account))
    (deserialize : Bytes → Option T) (address : Pubkey) :
    Option (Except E (Option T)) :=
  match get_account address with
  | Except.error e => some (Except.error e)
  | Except.ok none => some (Except.ok none)
  | Except.ok (some account) =>
    match account.data with
    | [] => none
    | _ :: rest =>
      match deserialize rest with
      | none => none
      | some t => some (Except.ok (some t))

/-- Modelled from the spec: backend ledger state — which addresses currently
hold accounts; an address never written holds none. -/
structure Ledger where
  accounts : Pubkey → Option Account

/-- Modelled from the spec: the RPC response wrapper whose value field the
adapter projects out. -/
structure RpcResponse (T : Type) where
  value : T
deriving DecidableEq

/-- Modelled from the spec: the live backend read-account call
(get_account_with_commitment): absent and present are both successful
responses; transport failure is a backend error, modelled by a fault input. -/
def rpc_get_account_with_commitment {E : Type} (ledger : Ledger)
    (fault : Option E) (address : Pubkey) :
    Except E (RpcResponse (Option Account)) :=
  match fault with
  | some e => Except.error e
  | none => Except.ok { value := ledger.accounts address }

/-- get_account of the AccountReader implementation for the live RPC backend in
adapter.rs: call the backend read and map the response to its value. -/
def adapter_get_account {E : Type} (ledger : Ledger) (fault : Option E)
    (address : Pubkey) : Except E (Option Account) :=
  (rpc_get_account_with_commitment ledger fault address).map (fun r => r.value)

/-- A recent-blockhash liveness token. -/
abbrev Hash : Type := Nat

/-- A transaction receipt identifier. -/
abbrev Signature : Type := Nat

/-- Modelled from the spec: a transaction message built from an instruction
list and a fee payer (the Solana SDK Message). -/
structure TxMessage where
  instructions : List Instruction
  payer : Option Pubkey
deriving DecidableEq

/-- Modelled from the spec: Message::new — build one transaction message from
the given instructions with the given fee payer. -/
def TxMessage.new (instructions : List Instruction) (payer : Option Pubkey) :
    TxMessage :=
  { instructions := instructions, payer := payer }

/-- Modelled from the spec: a transaction — a message plus signatures. -/
structure Transaction where
  message : TxMessage
  signatures : List Signature
deriving DecidableEq

/-- Modelled from the spec: Transaction::new_unsigned — a transaction over the
message with no signatures yet. -/
def Transaction.new_unsigned (message : TxMessage) : Transaction :=
  { message := message, signatures := [] }

/-- The two backend calls the TransactionSender trait of lib.rs requires of an
implementation, as a record of function-valued capabilities. -/
structure TransactionSender (E : Type) where
  send_and_confirm_transaction : Transaction → Except E Signature
  get_latest_blockhash : Except E Hash

/-- send_and_confirm_as_transaction, the provided method of the
TransactionSender trait in lib.rs: fetch a fresh recent blockhash (propagating
a backend error), build one message from the instructions with the payer as
fee payer, make an unsigned transaction, sign it with the given signers and
that blockhash, and submit it through send_and_confirm_transaction. Signing is
the external SDK try_sign, modelled as a function input over an abstract
signer-set type; its unwrap on failure is modelled as the outer Option. -/
def send_and_confirm_as_transaction {E S : Type} (self : TransactionSender E)
    (try_sign : Transaction → S → Hash → Option Transaction)
    (instructions : List Instruction) (payer : Pubkey) (signers : S) :
    Option (Except E Signature) :=
  match self.get_latest_blockhash with
  | Except.error e => some (Except.error e)
  | Except.ok recent_blockhash =>
    let message := TxMessage.new instructions (some payer)
    let transaction := Transaction.new_unsigned message
    match try_sign transaction signers recent_blockhash with
    | none => none
    | some signed => some (self.send_and_confirm_transaction signed)

/-! Helper lemmas shared by the claim theorems. -/

/-- Serialization success returns exactly the encoded payload, which fits the
backend bound. -/
theorem into_instruction_data_some_spec (i : MailboxInstruction) (d : Bytes)
    (h : i.into_instruction_data = some d) :
    d = i.encode ∧ i.encode.length ≤ MAX_INSTRUCTION_DATA_LEN := by
  unfold MailboxInstruction.into_instruction_data at h
  split at h
  · exact ⟨(Option.some.inj h).symm, by assumption⟩
  · exact Option.noConfusion h

/-- Structure of a successful inbox_process result. -/
theorem inbox_process_some_spec (mailbox_program_id inbox payer : Pubkey)
    (metadata : Bytes) (message : HyperlaneMessage)
    (get_ism ism_verify recipient_handle : Instruction) (ixn : Instruction)
    (h : inbox_process mailbox_program_id inbox payer metadata message get_ism
      ism_verify recipient_handle = some ixn) :
    ixn = { program_id := mailbox_program_id,
            data := (MailboxInstruction.InboxProcess
              { metadata := metadata, message := message.write_to }).encode,
            accounts :=
              [AccountMeta.new_readonly payer true,
               AccountMeta.new_readonly system_program_id false,
               AccountMeta.new inbox false,
               AccountMeta.new_readonly (find_program_address
                 (mailbox_process_authority_pda_seeds recipient_handle.program_id)
                 mailbox_program_id).1 false,
               AccountMeta.new (find_program_address
                 (mailbox_processed_message_pda_seeds message.id)
                 mailbox_program_id).1 false]
              ++ get_ism.accounts
              ++ [AccountMeta.new_readonly spl_noop_id false,
                  AccountMeta.new_readonly ism_verify.program_id false]
              ++ ism_verify.accounts
              ++ [AccountMeta.new_readonly recipient_handle.program_id false]
              ++ recipient_handle.accounts } := by
  unfold inbox_process at h
  cases h0 : (MailboxInstruction.InboxProcess
      { metadata := metadata, message := message.write_to }).into_instruction_data with
  | none =>
    simp only [h0] at h
    exact Option.noConfusion h
  | some d =>
    obtain ⟨hd, _⟩ := into_instruction_data_some_spec _ _ h0
    simp only [h0, Option.some.injEq] at h
    subst h
    subst hd
    simp [List.flatten]

/-- inbox_process yields no instruction exactly when payload serialization of
the InboxProcess operation fails. -/
theorem inbox_process_none_iff (mailbox_program_id inbox payer : Pubkey)
    (metadata : Bytes) (message : HyperlaneMessage)
    (get_ism ism_verify recipient_handle : Instruction) :
    inbox_process mailbox_program_id inbox payer metadata message get_ism
      ism_verify recipient_handle = none ↔
    (MailboxInstruction.InboxProcess
      { metadata := metadata, message := message.write_to }).into_instruction_data
      = none := by
  unfold inbox_process
  cases h0 : (MailboxInstruction.InboxProcess
      { metadata := metadata, message := message.write_to }).into_instruction_data
    <;> simp [h0]

/-- Structure of a successful initialize_mailbox result. -/
theorem initialize_mailbox_some_spec (mailbox_program_id payer : Pubkey)
    (local_domain : Nat) (default_ism : Pubkey)
    (ixn : Instruction) (accts : MailboxAccounts)
    (h : initialize_mailbox mailbox_program_id payer local_domain default_ism
      = some (ixn, accts)) :
    ixn = { program_id := mailbox_program_id,
            data := (MailboxInstruction.Init
              { local_domain := local_domain, default_ism := default_ism }).encode,
            accounts :=
              [AccountMeta.new system_program_id false,
               AccountMeta.new payer true,
               AccountMeta.new
                 (find_program_address mailbox_inbox_pda_seeds mailbox_program_id).1
                 false,
               AccountMeta.new
                 (find_program_address mailbox_outbox_pda_seeds mailbox_program_id).1
                 false] } ∧
    accts = { program := mailbox_program_id,
              inbox :=
                (find_program_address mailbox_inbox_pda_seeds mailbox_program_id).1,
              inbox_bump_seed :=
                (find_program_address mailbox_inbox_pda_seeds mailbox_program_id).2,
              outbox :=
                (find_program_address mailbox_outbox_pda_seeds mailbox_program_id).1,
              outbox_bump_seed :=
                (find_program_address mailbox_outbox_pda_seeds mailbox_program_id).2,
              default_ism := default_ism } := by
  unfold initialize_mailbox at h
  cases h0 : (MailboxInstruction.Init
      { local_domain := local_domain, default_ism := default_ism }).into_instruction_data with
  | none =>
    simp only [h0] at h
    exact Option.noConfusion h
  | some d =>
    obtain ⟨hd, _⟩ := into_instruction_data_some_spec _ _ h0
    simp only [h0, Option.some.injEq, Prod.mk.injEq] at h
    obtain ⟨h1, h2⟩ := h
    subst h1
    subst h2
    subst hd
    exact ⟨rfl, rfl⟩

/-- initialize_mailbox yields no result exactly when payload serialization of
the Init operation fails. -/
theorem initialize_mailbox_none_iff (mailbox_program_id payer : Pubkey)
    (local_domain : Nat) (default_ism : Pubkey) :
    initialize_mailbox mailbox_program_id payer local_domain default_ism = none ↔
    (MailboxInstruction.Init
      { local_domain := local_domain, default_ism := default_ism }).into_instruction_data
      = none := by
  unfold initialize_mailbox
  cases h0 : (MailboxInstruction.Init
      { local_domain := local_domain, default_ism := default_ism }).into_instruction_data
    <;> simp [h0]

/-- Structure of a successful outbox_dispatch result. -/
theorem outbox_dispatch_some_spec (mailbox_program_id outbox payer : Pubkey)
    (message : OutboxDispatch) (kp : Keypair)
    (ixn : Instruction) (ret_kp : Keypair) (addr : Pubkey)
    (h : outbox_dispatch mailbox_program_id outbox payer message kp
      = some (ixn, ret_kp, addr)) :
    ixn = { program_id := mailbox_program_id,
            data := (MailboxInstruction.OutboxDispatch message).encode,
            accounts :=
              [AccountMeta.new outbox false,
               AccountMeta.new message.sender true,
               AccountMeta.new_readonly system_program_id false,
               AccountMeta.new_readonly spl_noop_id false,
               AccountMeta.new payer true,
               AccountMeta.new kp.pubkey true,
               AccountMeta.new (find_program_address
                 (mailbox_dispatched_message_pda_seeds kp.pubkey)
                 mailbox_program_id).1 false] } ∧
    ret_kp = kp ∧
    addr = (find_program_address
      (mailbox_dispatched_message_pda_seeds kp.pubkey) mailbox_program_id).1 := by
  unfold outbox_dispatch at h
  cases h0 : (MailboxInstruction.OutboxDispatch message).into_instruction_data with
  | none =>
    simp only [h0] at h
    exact Option.noConfusion h
  | some d =>
    obtain ⟨hd, _⟩ := into_instruction_data_some_spec _ _ h0
    simp only [h0, Option.some.injEq, Prod.mk.injEq] at h
    obtain ⟨h1, h2, h3⟩ := h
    subst h1
    subst h2
    subst h3
    subst hd
    exact ⟨rfl, rfl, rfl⟩

/-- outbox_dispatch yields no result exactly when payload serialization of the
OutboxDispatch operation fails. -/
theorem outbox_dispatch_none_iff (mailbox_program_id outbox payer : Pubkey)
    (message : OutboxDispatch) (kp : Keypair) :
    outbox_dispatch mailbox_program_id outbox payer message kp = none ↔
    (MailboxInstruction.OutboxDispatch message).into_instruction_data = none := by
  unfold outbox_dispatch
  cases h0 : (MailboxInstruction.OutboxDispatch message).into_instruction_data
    <;> simp [h0]

/-- Indexing a concatenation at the length of its left part yields the head of
the right part. -/
theorem get_append_cons {α : Type} (p : List α) (a : α) (s : List α) (n : Nat)
    (hn : n = p.length) : (p ++ a :: s)[n]? = some a := by
  subst hn
  induction p with
  | nil => simp
  | cons x xs ih => simpa using ih

/-- Positions of the three entries of an inbox_process account list that are
determined by the target programs of the sub-instruction stubs. -/
theorem inbox_process_entry_positions
    (mailbox_program_id inbox payer : Pubkey) (metadata : Bytes)
    (message : HyperlaneMessage)
    (get_ism ism_verify recipient_handle : Instruction) (ixn : Instruction)
    (h : inbox_process mailbox_program_id inbox payer metadata message get_ism
      ism_verify recipient_handle = some ixn) :
    ixn.accounts[3]? = some (AccountMeta.new_readonly
      (find_program_address
        (mailbox_process_authority_pda_seeds recipient_handle.program_id)
        mailbox_program_id).1 false) ∧
    ixn.accounts[5 + get_ism.accounts.length + 1]?
      = some (AccountMeta.new_readonly ism_verify.program_id false) ∧
    ixn.accounts[5 + get_ism.accounts.length + 2 + ism_verify.accounts.length]?
      = some (AccountMeta.new_readonly recipient_handle.program_id false) := by
  have hixn := inbox_process_some_spec _ _ _ _ _ _ _ _ _ h
  refine ⟨?_, ?_, ?_⟩
  · have haccs : ixn.accounts =
        [AccountMeta.new_readonly payer true,
         AccountMeta.new_readonly system_program_id false,
         AccountMeta.new inbox false]
        ++ AccountMeta.new_readonly (find_program_address
            (mailbox_process_authority_pda_seeds recipient_handle.program_id)
            mailbox_program_id).1 false
        :: (AccountMeta.new (find_program_address
              (mailbox_processed_message_pda_seeds message.id)
              mailbox_program_id).1 false
            :: (get_ism.accounts
              ++ [AccountMeta.new_readonly spl_noop_id false,
                  AccountMeta.new_readonly ism_verify.program_id false]
              ++ ism_verify.accounts
              ++ [AccountMeta.new_readonly recipient_handle.program_id false]
              ++ recipient_handle.accounts)) := by
      rw [hixn]
      rfl
    rw [haccs]
    exact get_append_cons _ _ _ _ (by simp)
  · have haccs : ixn.accounts =
        ([AccountMeta.new_readonly payer true,
          AccountMeta.new_readonly system_program_id false,
          AccountMeta.new inbox false,
          AccountMeta.new_readonly (find_program_address
            (mailbox_process_authority_pda_seeds recipient_handle.program_id)
            mailbox_program_id).1 false,
          AccountMeta.new (find_program_address
            (mailbox_processed_message_pda_seeds message.id)
            mailbox_program_id).1 false]
          ++ get_ism.accounts
          ++ [AccountMeta.new_readonly spl_noop_id false])
        ++ AccountMeta.new_readonly ism_verify.program_id false
        :: (ism_verify.accounts
          ++ [AccountMeta.new_readonly recipient_handle.program_id false]
          ++ recipient_handle.accounts) := by
      rw [hixn]
      simp [List.append_assoc]
    rw [haccs]
    exact get_append_cons _ _ _ _ (by
      simp only [List.length_append, List.length_cons, List.length_nil])
  · have haccs : ixn.accounts =
        ([AccountMeta.new_readonly payer true,
          AccountMeta.new_readonly system_program_id false,
          AccountMeta.new inbox false,
          AccountMeta.new_readonly (find_program_address
            (mailbox_process_authority_pda_seeds recipient_handle.program_id)
            mailbox_program_id).1 false,
          AccountMeta.new (find_program_address
            (mailbox_processed_message_pda_seeds message.id)
            mailbox_program_id).1 false]
          ++ get_ism.accounts
          ++ [AccountMeta.new_readonly spl_noop_id false,
              AccountMeta.new_readonly ism_verify.program_id false]
          ++ ism_verify.accounts)
        ++ AccountMeta.new_readonly recipient_handle.program_id false
        :: recipient_handle.accounts := by
      rw [hixn]
      simp [List.append_assoc]
    rw [haccs]
    exact get_append_cons _ _ _ _ (by
      simp only [List.length_append, List.length_cons, List.length_nil])

/-! Concrete fixtures used by the witness theorems. -/

/-- A small concrete message. -/
def wMsg : HyperlaneMessage :=
  { origin := 0, destination := 0, sender := 0, recipient := 0, body := [3, 3] }

/-- The concrete instruction built by inbox_process on the fixture inputs. -/
def wInboxIxn : Instruction :=
  (inbox_process 7 8 9 [] wMsg (empty 2) (empty 3) (empty 4)).getD (empty 0)

/-- The concrete instruction built by inbox_process on fixture inputs whose
sub-instruction stubs target different programs. -/
def wInboxIxn2 : Instruction :=
  (inbox_process 7 8 9 [] wMsg (empty 2) (empty 13) (empty 14)).getD (empty 0)

/-- A small concrete dispatch payload. -/
def wOutMsg : OutboxDispatch :=
  { sender := 6, destination_domain := 0, recipient := 0, message_body := [3, 3] }

/-- The concrete triple built by outbox_dispatch on the fixture inputs. -/
def wOutTriple : Instruction × Keypair × Pubkey :=
  (outbox_dispatch 5 10 6 wOutMsg { pubkey_value := 11 }).getD
    (empty 0, { pubkey_value := 0 }, 0)

/-- The concrete pair built by initialize_mailbox on the fixture inputs. -/
def wInitPair : Instruction × MailboxAccounts :=
  (initialize_mailbox 5 6 0 2).getD
    (empty 0,
     { program := 0, inbox := 0, inbox_bump_seed := 0, outbox := 0,
       outbox_bump_seed := 0, default_ism := 0 })

/-- A concrete stored account whose data carries a discriminator byte and one
payload byte. -/
def wAccount : Account :=
  { lamports := 1, data := [1, 42], owner := 0, executable := false,
    rent_epoch := 0 }

/-- A concrete backend read returning the fixture account at address 3 and
absent everywhere else. -/
def wFetch : Pubkey → Except Nat (Option Account) :=
  fun a => if a = 3 then Except.ok (some wAccount) else Except.ok none

/-- A concrete decoder reading the first remaining byte. -/
def wDeserialize : Bytes → Option Nat := fun b => b.head?

/-- A concrete ledger holding the fixture account at address 3 only. -/
def wLedger : Ledger :=
  { accounts := fun a => if a = 3 then some wAccount else none }

/-- A concrete backend for transaction submission. -/
def wSender : TransactionSender Nat :=
  { send_and_confirm_transaction := fun t => Except.ok (t.signatures.length + 100),
    get_latest_blockhash := Except.ok 99 }

/-- A concrete signing function stamping the blockhash as the signature. -/
def wTrySign : Transaction → Unit → Hash → Option Transaction :=
  fun t _ h => some { t with signatures := [h] }

/-! Claim theorems. -/

/-- Claim C1: for every metadata, message and sub-instruction triple, the
instruction returned by inbox_process has an account list that is exactly the
fixed five-element prefix (payer read-only signer, system account, inbox
writable, process-authority read-only, processed-message writable), then the
getIsm accounts unchanged, then the no-op program and the ISM program identity
(read-only), then the ismVerify accounts unchanged, then the recipient program
identity (read-only), then the recipientHandle accounts unchanged; hence its
length equals 5 + the getIsm account count + 2 + the ismVerify account count
+ 1 + the recipientHandle account count. -/
theorem inbox_process_account_list_flattening
    (mailbox_program_id inbox payer : Pubkey) (metadata : Bytes)
    (message : HyperlaneMessage)
    (get_ism ism_verify recipient_handle : Instruction) (ixn : Instruction)
    (h : inbox_process mailbox_program_id inbox payer metadata message get_ism
      ism_verify recipient_handle = some ixn) :
    ixn.accounts =
      [AccountMeta.new_readonly payer true,
       AccountMeta.new_readonly system_program_id false,
       AccountMeta.new inbox false,
       AccountMeta.new_readonly (find_program_address
         (mailbox_process_authority_pda_seeds recipient_handle.program_id)
         mailbox_program_id).1 false,
       AccountMeta.new (find_program_address
         (mailbox_processed_message_pda_seeds message.id)
         mailbox_program_id).1 false]
      ++ get_ism.accounts
      ++ [AccountMeta.new_readonly spl_noop_id false,
          AccountMeta.new_readonly ism_verify.program_id false]
      ++ ism_verify.accounts
      ++ [AccountMeta.new_readonly recipient_handle.program_id false]
      ++ recipient_handle.accounts ∧
    ixn.accounts.length = 5 + get_ism.accounts.length + 2
      + ism_verify.accounts.length + 1 + recipient_handle.accounts.length := by
  have hixn := inbox_process_some_spec _ _ _ _ _ _ _ _ _ h
  subst hixn
  refine ⟨rfl, ?_⟩
  simp only [List.length_append, List.length_cons, List.length_nil]

set_option maxRecDepth 100000 in
/-- Witness for C1 at concrete inputs. -/
theorem inbox_process_account_list_flattening_witness :
    inbox_process 7 8 9 [] wMsg (empty 2) (empty 3) (empty 4) = some wInboxIxn ∧
    wInboxIxn.accounts.length = 5 + (empty 2).accounts.length + 2
      + (empty 3).accounts.length + 1 + (empty 4).accounts.length :=
  ⟨by decide,
   (inbox_process_account_list_flattening 7 8 9 [] wMsg (empty 2) (empty 3)
     (empty 4) wInboxIxn (by decide)).2⟩

/-- Claim C2: a builder input whose payload fails protocol serialization is a
construction-time failure: the builder yields its failure outcome and no
instruction value is ever produced for submission to a backend; conversely a
builder fails only for that reason, so the failure is never swallowed. -/
theorem builder_serialization_failure_surfaced
    (mailbox_program_id inbox outbox payer : Pubkey) (local_domain : Nat)
    (default_ism : Pubkey) (message : OutboxDispatch) (kp : Keypair)
    (metadata : Bytes) (hl_message : HyperlaneMessage)
    (get_ism ism_verify recipient_handle : Instruction) :
    (initialize_mailbox mailbox_program_id payer local_domain default_ism = none
      ↔ (MailboxInstruction.Init
          { local_domain := local_domain,
            default_ism := default_ism }).into_instruction_data = none) ∧
    (outbox_dispatch mailbox_program_id outbox payer message kp = none
      ↔ (MailboxInstruction.OutboxDispatch message).into_instruction_data
          = none) ∧
    (inbox_process mailbox_program_id inbox payer metadata hl_message get_ism
        ism_verify recipient_handle = none
      ↔ (MailboxInstruction.InboxProcess
          { metadata := metadata,
            message := hl_message.write_to }).into_instruction_data = none) :=
  ⟨initialize_mailbox_none_iff mailbox_program_id payer local_domain default_ism,
   outbox_dispatch_none_iff mailbox_program_id outbox payer message kp,
   inbox_process_none_iff mailbox_program_id inbox payer metadata hl_message
     get_ism ism_verify recipient_handle⟩

set_option maxRecDepth 100000 in
/-- Serialization failure is reachable: an oversized dispatch payload fails
serialization, and the dispatch builder then yields no instruction. -/
theorem oversized_dispatch_payload_fails :
    (MailboxInstruction.OutboxDispatch
      { sender := 6, destination_domain := 0, recipient := 0,
        message_body := List.replicate 1300 0 }).into_instruction_data = none ∧
    outbox_dispatch 5 10 6
      { sender := 6, destination_domain := 0, recipient := 0,
        message_body := List.replicate 1300 0 } { pubkey_value := 11 }
      = none := by
  constructor <;> decide

/-- Claim C3: get_account_deserialized returns the explicit absent result when
the account does not exist; when it exists with a nonempty byte content it
decodes the bytes after skipping exactly the first byte; and a decode failure
is surfaced as the distinct failure outcome, never as the absent result. -/
theorem get_account_deserialized_absent_vs_decode {E T : Type}
    (get_account : Pubkey → Except E (Option Account))
    (deserialize : Bytes → Option T) (address : Pubkey) :
    (get_account address = Except.ok none →
      get_account_deserialized get_account deserialize address
        = some (Except.ok none)) ∧
    (∀ account b rest t, get_account address = Except.ok (some account) →
      account.data = b :: rest → deserialize rest = some t →
      get_account_deserialized get_account deserialize address
        = some (Except.ok (some t))) ∧
    (∀ account b rest, get_account address = Except.ok (some account) →
      account.data = b :: rest → deserialize rest = none →
      get_account_deserialized get_account deserialize address = none ∧
      get_account_deserialized get_account deserialize address
        ≠ some (Except.ok none)) := by
  refine ⟨?_, ?_, ?_⟩
  · intro h
    simp only [get_account_deserialized, h]
  · intro account b rest t h hdata hdes
    simp only [get_account_deserialized, h, hdata, hdes]
  · intro account b rest h hdata hdes
    simp only [get_account_deserialized, h, hdata, hdes]
    exact ⟨trivial, by simp⟩

/-- Witness for C3 at concrete inputs: a present account decoded after the
first byte, and an absent account reported as the explicit absent result. -/
theorem get_account_deserialized_absent_vs_decode_witness :
    (wFetch 3 = Except.ok (some wAccount) ∧ wAccount.data = 1 :: [42] ∧
      wDeserialize [42] = some 42 ∧
      get_account_deserialized wFetch wDeserialize 3
        = some (Except.ok (some 42))) ∧
    (wFetch 0 = Except.ok none ∧
      get_account_deserialized wFetch wDeserialize 0
        = some (Except.ok none)) :=
  ⟨⟨rfl, rfl, rfl,
    (get_account_deserialized_absent_vs_decode wFetch wDeserialize 3).2.1
      wAccount 1 [42] 42 rfl rfl rfl⟩,
   ⟨rfl,
    (get_account_deserialized_absent_vs_decode wFetch wDeserialize 0).1 rfl⟩⟩

/-- Claim C4: outbox_dispatch derives the returned dispatched-message address
from the public key of the ephemeral unique-message keypair (generated fresh
per dispatch and modelled as an input), returns that keypair unchanged, and
returns an instruction whose account list is exactly outbox (writable), sender
(signer, writable), system account, no-op program, payer (signer, writable),
ephemeral key (signer, writable), dispatched-message (writable), whose payload
is the tagged OutboxDispatch operation carrying the full message. -/
theorem outbox_dispatch_account_list_and_address
    (mailbox_program_id outbox payer : Pubkey) (message : OutboxDispatch)
    (kp : Keypair) (ixn : Instruction) (ret_kp : Keypair) (addr : Pubkey)
    (h : outbox_dispatch mailbox_program_id outbox payer message kp
      = some (ixn, ret_kp, addr)) :
    addr = (find_program_address
      (mailbox_dispatched_message_pda_seeds kp.pubkey) mailbox_program_id).1 ∧
    ret_kp = kp ∧
    ixn.program_id = mailbox_program_id ∧
    ixn.accounts =
      [AccountMeta.new outbox false,
       AccountMeta.new message.sender true,
       AccountMeta.new_readonly system_program_id false,
       AccountMeta.new_readonly spl_noop_id false,
       AccountMeta.new payer true,
       AccountMeta.new kp.pubkey true,
       AccountMeta.new addr false] ∧
    ixn.data = (MailboxInstruction.OutboxDispatch message).encode := by
  obtain ⟨h1, h2, h3⟩ := outbox_dispatch_some_spec _ _ _ _ _ _ _ _ h
  subst h1
  subst h2
  subst h3
  exact ⟨rfl, rfl, rfl, rfl, rfl⟩

set_option maxRecDepth 100000 in
/-- Witness for C4 at concrete inputs. -/
theorem outbox_dispatch_account_list_and_address_witness :
    outbox_dispatch 5 10 6 wOutMsg { pubkey_value := 11 }
      = some (wOutTriple.1, wOutTriple.2.1, wOutTriple.2.2) ∧
    wOutTriple.2.2 = (find_program_address
      (mailbox_dispatched_message_pda_seeds 11) 5).1 :=
  ⟨by decide,
   (outbox_dispatch_account_list_and_address 5 10 6 wOutMsg
     { pubkey_value := 11 } wOutTriple.1 wOutTriple.2.1 wOutTriple.2.2
     (by decide)).1⟩

/-- Claim C5: initialize_mailbox returns an instruction whose account list is,
in fixed order, system account, payer (signer, writable), inbox (writable),
outbox (writable), whose payload is the tagged Init operation with the local
domain and the default ISM identity, together with a MailboxAccounts bundle
holding the program identity, the derived inbox account and its proof, the
derived outbox account and its proof, and the default ISM identity. -/
theorem initialize_mailbox_account_list_and_bundle
    (mailbox_program_id payer : Pubkey) (local_domain : Nat)
    (default_ism : Pubkey) (ixn : Instruction) (accts : MailboxAccounts)
    (h : initialize_mailbox mailbox_program_id payer local_domain default_ism
      = some (ixn, accts)) :
    ixn.program_id = mailbox_program_id ∧
    ixn.accounts =
      [AccountMeta.new system_program_id false,
       AccountMeta.new payer true,
       AccountMeta.new accts.inbox false,
       AccountMeta.new accts.outbox false] ∧
    ixn.data = (MailboxInstruction.Init
      { local_domain := local_domain, default_ism := default_ism }).encode ∧
    accts = { program := mailbox_program_id,
              inbox := (find_program_address mailbox_inbox_pda_seeds
                mailbox_program_id).1,
              inbox_bump_seed := (find_program_address mailbox_inbox_pda_seeds
                mailbox_program_id).2,
              outbox := (find_program_address mailbox_outbox_pda_seeds
                mailbox_program_id).1,
              outbox_bump_seed := (find_program_address mailbox_outbox_pda_seeds
                mailbox_program_id).2,
              default_ism := default_ism } := by
  obtain ⟨h1, h2⟩ := initialize_mailbox_some_spec _ _ _ _ _ _ h
  subst h1
  subst h2
  exact ⟨rfl, rfl, rfl, rfl⟩

set_option maxRecDepth 100000 in
/-- Witness for C5 at concrete inputs. -/
theorem initialize_mailbox_account_list_and_bundle_witness :
    initialize_mailbox 5 6 0 2 = some (wInitPair.1, wInitPair.2) ∧
    wInitPair.1.accounts =
      [AccountMeta.new system_program_id false,
       AccountMeta.new 6 true,
       AccountMeta.new wInitPair.2.inbox false,
       AccountMeta.new wInitPair.2.outbox false] :=
  ⟨by decide,
   (initialize_mailbox_account_list_and_bundle 5 6 0 2 wInitPair.1 wInitPair.2
     (by decide)).2.1⟩

/-- Claim C6: the read-account capability distinguishes three outcomes — the
account content when it exists, the explicit absent result when it does not,
and a backend error otherwise — and reading an address that was never written
on a healthy backend yields the explicit absent result, never an error. -/
theorem adapter_get_account_three_outcomes {E : Type} (ledger : Ledger)
    (fault : Option E) (address : Pubkey) :
    (fault = none → ledger.accounts address = none →
      adapter_get_account ledger fault address = Except.ok none) ∧
    (∀ account, fault = none → ledger.accounts address = some account →
      adapter_get_account ledger fault address = Except.ok (some account)) ∧
    (∀ e, fault = some e →
      adapter_get_account ledger fault address = Except.error e) := by
  refine ⟨?_, ?_, ?_⟩
  · intro hf hl
    unfold adapter_get_account rpc_get_account_with_commitment
    rw [hf, hl]
    rfl
  · intro account hf hl
    unfold adapter_get_account rpc_get_account_with_commitment
    rw [hf, hl]
    rfl
  · intro e hf
    unfold adapter_get_account rpc_get_account_with_commitment
    rw [hf]
    rfl

/-- Witness for C6 at concrete inputs: absent at a never-written address,
present at a written one, error under a backend fault. -/
theorem adapter_get_account_three_outcomes_witness :
    adapter_get_account wLedger (none : Option Nat) 0 = Except.ok none ∧
    adapter_get_account wLedger (none : Option Nat) 3
      = Except.ok (some wAccount) ∧
    adapter_get_account wLedger (some 5) 0 = Except.error 5 :=
  ⟨(adapter_get_account_three_outcomes wLedger none 0).1 rfl rfl,
   (adapter_get_account_three_outcomes wLedger none 3).2.1 wAccount rfl rfl,
   (adapter_get_account_three_outcomes wLedger (some 5) 0).2.2 5 rfl⟩

/-- Claim C7: initialize_mailbox is deterministic — two invocations with equal
inputs return equal results, in particular the same instruction and the same
MailboxAccounts bundle with the same derived inbox and outbox addresses and
proofs, so repeating the operation lands on the same addresses. -/
theorem initialize_mailbox_deterministic
    (p1 p2 payer1 payer2 : Pubkey) (d1 d2 : Nat) (ism1 ism2 : Pubkey)
    (hp : p1 = p2) (hpay : payer1 = payer2) (hd : d1 = d2)
    (hism : ism1 = ism2) :
    initialize_mailbox p1 payer1 d1 ism1
      = initialize_mailbox p2 payer2 d2 ism2 := by
  subst hp
  subst hpay
  subst hd
  subst hism
  rfl

/-- Witness for C7 at concrete inputs. -/
theorem initialize_mailbox_deterministic_witness :
    (5 : Pubkey) = 5 ∧
    initialize_mailbox 5 6 0 2 = initialize_mailbox 5 6 0 2 :=
  ⟨rfl, initialize_mailbox_deterministic 5 5 6 6 0 0 2 2 rfl rfl rfl rfl⟩

/-- Claim C8: send_and_confirm_as_transaction is exactly the composition —
fetch a fresh recent-blockhash liveness token, build one transaction message
from the given instructions with the given payer as fee payer, sign it with
the given signers and that token, submit it via send_and_confirm — returning
the submission result (the receipt identifier on success, the backend error on
submission failure), and returning the backend error when the token fetch
fails. -/
theorem send_and_confirm_as_transaction_composition {E S : Type}
    (self : TransactionSender E)
    (try_sign : Transaction → S → Hash → Option Transaction)
    (instructions : List Instruction) (payer : Pubkey) (signers : S) :
    (∀ e, self.get_latest_blockhash = Except.error e →
      send_and_confirm_as_transaction self try_sign instructions payer signers
        = some (Except.error e)) ∧
    (∀ bh signed, self.get_latest_blockhash = Except.ok bh →
      try_sign (Transaction.new_unsigned (TxMessage.new instructions
        (some payer))) signers bh = some signed →
      send_and_confirm_as_transaction self try_sign instructions payer signers
        = some (self.send_and_confirm_transaction signed)) := by
  constructor
  · intro e he
    unfold send_and_confirm_as_transaction
    rw [he]
  · intro bh signed hb hs
    unfold send_and_confirm_as_transaction
    simp only [hb, hs]

/-- Witness for C8 at concrete inputs. -/
theorem send_and_confirm_as_transaction_composition_witness :
    wSender.get_latest_blockhash = Except.ok 99 ∧
    wTrySign (Transaction.new_unsigned (TxMessage.new [empty 2] (some 6))) () 99
      = some { message := TxMessage.new [empty 2] (some 6),
               signatures := [99] } ∧
    send_and_confirm_as_transaction wSender wTrySign [empty 2] 6 ()
      = some (wSender.send_and_confirm_transaction
          { message := TxMessage.new [empty 2] (some 6),
            signatures := [99] }) :=
  ⟨rfl, rfl,
   (send_and_confirm_as_transaction_composition wSender wTrySign [empty 2]
     6 ()).2 99
     { message := TxMessage.new [empty 2] (some 6), signatures := [99] }
     rfl rfl⟩

/-- Claim C9: empty(programIdentity) is an instruction targeting that program
identity with an empty account list and an empty payload. -/
theorem empty_instruction_spec (program_id : Pubkey) :
    (empty program_id).program_id = program_id ∧
    (empty program_id).accounts = [] ∧
    (empty program_id).data = [] :=
  ⟨rfl, rfl, rfl⟩

/-- Claim C10: inbox_process takes the recipient program identity implicitly
from the target program of the recipient-handle stub — using it both for the
derived process-authority entry (position 3) and for the appended read-only
recipient entry (position 5 + the getIsm account count + 2 + the ismVerify
account count) — and takes the ISM program identity implicitly from the target
program of the ism-verify stub (position 5 + the getIsm account count + 1): on
two inputs differing only in those target programs, the three entries are in
each result the values determined by the stub targets of that result. -/
theorem inbox_process_implicit_program_identities
    (mailbox_program_id inbox payer : Pubkey) (metadata : Bytes)
    (message : HyperlaneMessage)
    (get_ism ism_verify recipient_handle ism_verify2 recipient_handle2 :
      Instruction)
    (ixn ixn2 : Instruction)
    (hva : ism_verify2.accounts = ism_verify.accounts)
    (_hvd : ism_verify2.data = ism_verify.data)
    (_hra : recipient_handle2.accounts = recipient_handle.accounts)
    (_hrd : recipient_handle2.data = recipient_handle.data)
    (h : inbox_process mailbox_program_id inbox payer metadata message get_ism
      ism_verify recipient_handle = some ixn)
    (h2 : inbox_process mailbox_program_id inbox payer metadata message get_ism
      ism_verify2 recipient_handle2 = some ixn2) :
    (ixn.accounts[3]? = some (AccountMeta.new_readonly
        (find_program_address
          (mailbox_process_authority_pda_seeds recipient_handle.program_id)
          mailbox_program_id).1 false) ∧
      ixn.accounts[5 + get_ism.accounts.length + 1]?
        = some (AccountMeta.new_readonly ism_verify.program_id false) ∧
      ixn.accounts[5 + get_ism.accounts.length + 2
          + ism_verify.accounts.length]?
        = some (AccountMeta.new_readonly recipient_handle.program_id false)) ∧
    (ixn2.accounts[3]? = some (AccountMeta.new_readonly
        (find_program_address
          (mailbox_process_authority_pda_seeds recipient_handle2.program_id)
          mailbox_program_id).1 false) ∧
      ixn2.accounts[5 + get_ism.accounts.length + 1]?
        = some (AccountMeta.new_readonly ism_verify2.program_id false) ∧
      ixn2.accounts[5 + get_ism.accounts.length + 2
          + ism_verify.accounts.length]?
        = some (AccountMeta.new_readonly recipient_handle2.program_id
            false)) := by
  refine ⟨inbox_process_entry_positions _ _ _ _ _ _ _ _ _ h, ?_⟩
  have h3 := inbox_process_entry_positions _ _ _ _ _ _ _ _ _ h2
  rw [hva] at h3
  exact h3

set_option maxRecDepth 100000 in
/-- Witness for C10 at concrete inputs whose stub targets differ. -/
theorem inbox_process_implicit_program_identities_witness :
    (empty 13).accounts = (empty 3).accounts ∧
    inbox_process 7 8 9 [] wMsg (empty 2) (empty 3) (empty 4)
      = some wInboxIxn ∧
    inbox_process 7 8 9 [] wMsg (empty 2) (empty 13) (empty 14)
      = some wInboxIxn2 ∧
    wInboxIxn2.accounts[3]? = some (AccountMeta.new_readonly
      (find_program_address
        (mailbox_process_authority_pda_seeds (empty 14).program_id) 7).1
      false) :=
  ⟨rfl, by decide, by decide,
   ((inbox_process_implicit_program_identities 7 8 9 [] wMsg (empty 2)
     (empty 3) (empty 4) (empty 13) (empty 14) wInboxIxn wInboxIxn2
     rfl rfl rfl rfl (by decide) (by decide)).2).1⟩


end HyperlaneCli
